import Mathlib

/-!
Shallow embedding of the NVE water-flow Home Assistant integrations
(custom_components/sildre and custom_components/nve_water_flow).

Modelling conventions:
  * JSON values and Python objects flowing through the client are `JVal`;
    Python dicts are association lists in insertion order (all dicts built
    by this code use distinct keys, so first-match lookup agrees with
    Python dict semantics).
  * `d.get(k)` returns Python `None` when the key is absent; since `None`
    is itself a value, `dget` collapses absence to `JVal.null`, while
    `dcontains` models the `in` operator (which does distinguish a key that
    is present with value `None` from an absent key).
  * An HTTP request either yields a response with a status and parsed JSON
    body (`HttpResult.ok`), raises `aiohttp.ClientError` (`netErr` — DNS
    failure, refused connection, TLS failure, timeout), or raises some
    other exception (`otherErr`).
  * Functions whose Python body can raise an exception that escapes the
    function return an `Option` whose `none` means "raised"; functions
    that catch everything (`except Exception: return None`) return their
    Python value directly, with `none` meaning the Python `None` return.
  * `datetime.now()` instants are abstract `Nat` ticks; the ISO string
    stored inside merged dicts is passed in as an opaque `String`.
-/

/-- A JSON value / Python object as it appears in API responses. -/
inductive JVal where
  | null
  | b (v : Bool)
  | s (v : String)
  | i (v : Int)
  | arr (items : List JVal)
  | obj (fields : List (String × JVal))

/-- A Python dict with string keys, in insertion order. -/
abbrev Dict := List (String × JVal)

/-- First-match lookup in an association list (Python dict indexing). -/
def dlookup : Dict → String → Option JVal
  | [], _ => none
  | (k2, v) :: rest, k => if k2 == k then some v else dlookup rest k

/-- Python `d.get(k)`: absent keys give `None`, collapsed to `JVal.null`. -/
def dget (d : Dict) (k : String) : JVal :=
  (dlookup d k).getD .null

/-- Python `d.get(k, default)`. -/
def dgetD (d : Dict) (k : String) (dflt : JVal) : JVal :=
  (dlookup d k).getD dflt

/-- Python `k in d` on a dict. -/
def dcontains (d : Dict) (k : String) : Bool :=
  (dlookup d k).isSome

/-- Python truthiness of a JSON value. -/
def truthy : JVal → Bool
  | .null => false
  | .b v => v
  | .i v => v != 0
  | .s v => !v.isEmpty
  | .arr l => !l.isEmpty
  | .obj l => !l.isEmpty

/-- Python `str()` on a JSON scalar. The code only ever applies `str` to the
    scalar "parameter" field; the textual repr of containers is abstracted
    to a fixed tag (no claim depends on it, and it is applied identically
    on both sides of every theorem below). -/
def pyStr : JVal → String
  | .null => "None"
  | .b true => "True"
  | .b false => "False"
  | .s v => v
  | .i v => toString v
  | .arr _ => "<list>"
  | .obj _ => "<dict>"

/-- Outcome of one `session.get` plus body parse as observed by the client
    code: a response with an HTTP status and JSON body, an
    `aiohttp.ClientError` (network-level error: DNS, refused connection,
    TLS failure, timeout), or any other exception. -/
inductive HttpResult where
  | ok (status : Nat) (body : JVal)
  | netErr
  | otherErr

/-- Outcome of `NVEAPI.test_connection` (identical in both generations). -/
inductive ConnOutcome where
  | success
  | invalidAPIKey
  | cannotConnect
  | unhandled
deriving DecidableEq

/-- `NVEAPI.test_connection`: 200 → True; 401 → raise InvalidAPIKey;
    other status → raise CannotConnect; `aiohttp.ClientError` → raise
    CannotConnect.  Exceptions that are not `ClientError` are not caught
    and escape (`unhandled`). -/
def test_connection : HttpResult → ConnOutcome
  | .ok status _ =>
      if status == 200 then .success
      else if status == 401 then .invalidAPIKey
      else .cannotConnect
  | .netErr => .cannotConnect
  | .otherErr => .unhandled

/-- Result of a station-info fetch: a returned Python value, or the raised
    `InvalidAPIKey` exception. -/
inductive InfoResult (α : Type) where
  | ret (v : Option α)
  | invalidKey
deriving DecidableEq

namespace Sildre

/-- Loop body of `get_series_data` over `data["data"]`: for each series
    take `observations[-1]` and build the record; an empty (or falsy)
    `observations` is skipped with `continue`; any shape that would make
    the Python raise (non-dict series, non-indexable observations,
    non-dict last observation) aborts the whole call (`except Exception`
    in the caller returns `None`), modelled as `none`. -/
def processSeriesList : List JVal → Option (List JVal)
  | [] => some []
  | series :: rest =>
    match series with
    | .obj sd =>
      let observations := dgetD sd "observations" (.arr [])
      if truthy observations then
        match observations with
        | .arr l =>
          match l.getLast? with
          | some (.obj od) =>
            (processSeriesList rest).map (fun r =>
              JVal.obj [("parameter", dget sd "parameter"),
                        ("time", dget od "time"),
                        ("value", dget od "value"),
                        ("correction", dget od "correction"),
                        ("quality", dget od "quality")] :: r)
          | _ => none
        | _ => none
      else processSeriesList rest
    | _ => none

/-- `NVEAPI.get_series_data` (sildre): non-200 → None; otherwise build one
    record per series from the last observation of that series.  Any
    exception (network, parse, shape) is caught and gives None.  A body
    whose `"data"` value is an empty dict or empty string iterates zero
    times and yields the empty list; other non-list values raise during
    iteration and are caught. -/
def get_series_data (r : HttpResult) : Option (List JVal) :=
  match r with
  | .ok status body =>
    if status != 200 then none
    else
      match body with
      | .obj d =>
        match dgetD d "data" (.arr []) with
        | .arr seriesList => processSeriesList seriesList
        | .obj l => if l.isEmpty then some [] else none
        | .s sv => if sv.isEmpty then some [] else none
        | _ => none
      | _ => none
  | .netErr => none
  | .otherErr => none

/-- Loop of `get_station_info` over `stations[0].get("seriesList", [])`:
    normalizes each series dict; a non-dict element raises
    (`AttributeError` on `.get`), caught by the broad except → None. -/
def mapSeriesListRaw : List JVal → Option (List JVal)
  | [] => some []
  | series :: rest =>
    match series with
    | .obj sd =>
      (mapSeriesListRaw rest).map (fun r =>
        JVal.obj [("parameter_name", dget sd "parameterName"),
                  ("parameter", .s (pyStr (dget sd "parameter"))),
                  ("unit", dget sd "unit")] :: r)
    | _ => none

/-- `NVEAPI.get_station_info` (sildre): 401 → raise InvalidAPIKey
    (re-raised past the broad except, so it reaches the caller); other
    non-200 → None; zero stations → None; otherwise the first station is
    normalized into a fixed-shape record that always carries the keys
    station_id, station_name, culQm, culQ5, culQ50 and series_list.
    A `seriesList` value that is an empty dict or empty string iterates
    zero times; other malformed shapes raise and are caught (None). -/
def get_station_info (r : HttpResult) : InfoResult Dict :=
  match r with
  | .ok status body =>
    if status == 401 then .invalidKey
    else if status != 200 then .ret none
    else
      match body with
      | .obj d =>
        match dgetD d "data" (.arr []) with
        | .arr stations =>
          match stations with
          | [] => .ret none
          | station :: _ =>
            match station with
            | .obj st =>
              let mkRet : List JVal → InfoResult Dict := fun seriesList =>
                .ret (some [("station_id", dget st "stationId"),
                            ("station_name", dget st "stationName"),
                            ("culQm", dget st "culQm"),
                            ("culQ5", dget st "culQ5"),
                            ("culQ50", dget st "culQ50"),
                            ("series_list", .arr seriesList)])
              match dgetD st "seriesList" (.arr []) with
              | .arr sl =>
                match mapSeriesListRaw sl with
                | some seriesList => mkRet seriesList
                | none => .ret none
              | .obj l => if l.isEmpty then mkRet [] else .ret none
              | .s sv => if sv.isEmpty then mkRet [] else .ret none
              | _ => .ret none
            | _ => .ret none
        | _ => .ret none
      | _ => .ret none
  | .netErr => .ret none
  | .otherErr => .ret none

end Sildre

/-- Constants from const.py (identical in both generations). -/
def UPDATE_INTERVAL_SECONDS : Int := 600

/-- Jitter variance from coordinator.py (both generations). -/
def VARIANCE_SECONDS : Int := 30

/-- Coordinator construction: if no explicit `update_interval` is passed,
    the interval is the base interval plus one draw of
    `random.randint(-VARIANCE_SECONDS, VARIANCE_SECONDS)` (the draw is an
    input here; `randint` guarantees it lies in the closed range). The
    result is stored once in the coordinator and never reassigned. -/
def effective_update_interval (explicit : Option Int) (draw : Int) : Int :=
  match explicit with
  | some v => v
  | none => UPDATE_INTERVAL_SECONDS + draw

/-- Sildre coordinator state as far as the embedded code touches it:
    `data` is the host base-class snapshot (what sensors read via
    `coordinator.data`; `none` until a first refresh stores a value),
    `station_data` is `self.station_data` (initialized to `{}`, later
    assigned the fetch result, which may be Python `None`),
    `last_update` is `self._last_update`, and `update_interval` is the
    interval computed at construction. -/
structure SildreState where
  data : Option Dict
  station_data : Option Dict
  last_update : Option Nat
  update_interval : Int

/-- NVE water-flow coordinator state: `data` maps station id to the merged
    station dict (host base-class snapshot), plus the refresh timestamp
    and the construction-time interval. -/
structure NVEState where
  data : Option (List (String × Dict))
  last_update : Option Nat
  update_interval : Int
  station_id : String

namespace Sildre

/-- `SildreCoordinator._fetch_station_data`, parameterized by the values
    the two API calls returned: starts from the base dict
    {station_id, station_name, last_update}, adds `series_data` when
    `get_series_data` returned a truthy (non-empty) list, adds `culq_data`
    built from the keys present in the station-info dict, and returns the
    merged dict only when `len(station_data) > 2`, else `None`. -/
def fetch_station_data (stationId stationName nowIso : String)
    (seriesData : Option (List JVal)) (stationInfo : Option Dict) : Option Dict :=
  let sd0 : Dict := [("station_id", .s stationId),
                     ("station_name", .s stationName),
                     ("last_update", .s nowIso)]
  let sd1 : Dict :=
    match seriesData with
    | some l => if l.isEmpty then sd0 else sd0 ++ [("series_data", .arr l)]
    | none => sd0
  let sd2 : Dict :=
    match stationInfo with
    | some info =>
      if info.isEmpty then sd1
      else
        let culq : Dict :=
          (if dcontains info "culQm" then [("culQm", dget info "culQm")] else []) ++
          (if dcontains info "culQ5" then [("culQ5", dget info "culQ5")] else []) ++
          (if dcontains info "culQ50" then [("culQ50", dget info "culQ50")] else [])
        if culq.isEmpty then sd1 else sd1 ++ [("culq_data", .obj culq)]
    | none => sd1
  if sd2.length > 2 then some sd2 else none

/-- Composition of the two API calls inside `_fetch_station_data`: the
    series fetch swallows all its exceptions, but the station-info fetch
    re-raises `InvalidAPIKey`, which escapes `_fetch_station_data`. -/
def fetch_outcome (stationId stationName nowIso : String)
    (seriesResp stationResp : HttpResult) : Except Unit (Option Dict) :=
  let seriesData := get_series_data seriesResp
  match get_station_info stationResp with
  | .invalidKey => .error ()
  | .ret info => .ok (fetch_station_data stationId stationName nowIso seriesData info)

/-- One refresh tick of the sildre coordinator:
    `SildreCoordinator._async_update_data` composed with the host
    base-class refresh (the host stores the returned value in `.data`; if
    the update method raises, it records the failure and leaves `.data`
    unchanged).  Success path: `data` is the fetched dict when truthy else
    `{}`, `self._last_update = now`, `self.station_data` is the raw fetch
    result.  Exception path: the handler sets `data = {}` and
    `self._last_update = now`, but the following
    `self.station_data = station_data` reads the local `station_data`
    that was never bound, raising `UnboundLocalError`; the return is not
    reached, so the host keeps the previous `.data` and `station_data`
    keeps its previous value. -/
def refresh_tick (st : SildreState) (fetch : Except Unit (Option Dict))
    (now : Nat) : SildreState :=
  match fetch with
  | .ok sd =>
    let dta : Dict :=
      match sd with
      | some d => if d.isEmpty then [] else d
      | none => []
    { st with data := some dta, station_data := sd, last_update := some now }
  | .error _ =>
    { st with last_update := some now }

/-- Loop of `get_data_for_parameter` over `station_data["series_data"]`:
    returns the first series dict whose `str(serie.get("parameter"))`
    equals the requested id.  A non-dict element makes the Python raise
    (there is no try/except in this method), modelled as outer `none`. -/
def findParamLoop : List JVal → String → Option (Option JVal)
  | [], _ => some none
  | serie :: rest, pid =>
    match serie with
    | .obj sd =>
      if pyStr (dget sd "parameter") == pid then some (some (.obj sd))
      else findParamLoop rest pid
    | _ => none

/-- `SildreCoordinator.get_data_for_parameter`: `None` when
    `self.station_data` is falsy (Python `None` or `{}`); otherwise scan
    `station_data.get("series_data", [])` for the first matching series.
    The outer `Option` is `none` exactly when the Python would raise
    (a non-iterable `series_data` value or a non-dict element). -/
def get_data_for_parameter (stationData : Option Dict) (parameterId : String) :
    Option (Option JVal) :=
  match stationData with
  | none => some none
  | some sd =>
    if sd.isEmpty then some none
    else
      match dgetD sd "series_data" (.arr []) with
      | .arr l => findParamLoop l parameterId
      | .obj l => if l.isEmpty then some none else none
      | .s sv => if sv.isEmpty then some none else none
      | _ => none

end Sildre

/-- Character-list prefix test, helper for Python substring membership. -/
def startsWithL : List Char → List Char → Bool
  | [], _ => true
  | _ :: _, [] => false
  | a :: as2, b :: bs => a == b && startsWithL as2 bs

/-- Character-list contiguous-substring test. -/
def hasSubL (needle : List Char) : List Char → Bool
  | [] => needle.isEmpty
  | c :: rest => startsWithL needle (c :: rest) || hasSubL needle rest

namespace NVE

/-- `NVEAPI.resolve_station_name` (nve_water_flow): non-200 → None; zero
    stations → None (a soft not-found, no exception); otherwise take
    `stations[0].get("stationId")` and return it when truthy, else None.
    Two or more matches only add a logged warning before the same
    first-match return.  All exceptions are caught → None. -/
def resolve_station_name (r : HttpResult) : Option JVal :=
  match r with
  | .ok status body =>
    if status != 200 then none
    else
      match body with
      | .obj d =>
        match dgetD d "data" (.arr []) with
        | .arr stations =>
          match stations with
          | [] => none
          | station :: _ =>
            match station with
            | .obj st =>
              let stationId := dget st "stationId"
              if truthy stationId then some stationId else none
            | _ => none
        | _ => none
      | _ => none
  | .netErr => none
  | .otherErr => none

/-- `NVEAPI.get_water_flow_data` (nve_water_flow): non-200 → None; empty
    series list → None; otherwise ONLY the first series is consulted
    ("Get the first (and should be only) series"); if its observations
    are falsy the whole call returns None, otherwise the record is built
    from `observations[-1]`.  All exceptions are caught → None. -/
def get_water_flow_data (stationId : String) (r : HttpResult) : Option JVal :=
  match r with
  | .ok status body =>
    if status != 200 then none
    else
      match body with
      | .obj d =>
        match dgetD d "data" (.arr []) with
        | .arr seriesList =>
          match seriesList with
          | [] => none
          | series :: _ =>
            match series with
            | .obj sd =>
              let observations := dgetD sd "observations" (.arr [])
              if truthy observations then
                match observations with
                | .arr l =>
                  match l.getLast? with
                  | some (.obj od) =>
                    some (.obj [("station_id", .s stationId),
                                ("station_name", dgetD sd "stationName" (.s "Unknown")),
                                ("parameter_name", dgetD sd "parameterName" (.s "Unknown")),
                                ("unit", dgetD sd "unit" (.s "Unknown")),
                                ("value", dget od "value"),
                                ("time", dget od "time"),
                                ("quality", dget od "quality"),
                                ("correction", dget od "correction"),
                                ("method", dgetD sd "method" (.s "Unknown"))])
                  | _ => none
                | _ => none
              else none
            | _ => none
        | _ => none
      | _ => none
  | .netErr => none
  | .otherErr => none

/-- `NVEAPI.get_station_info` (nve_water_flow): there is NO 401 branch in
    this generation — any non-200 status (401 included) is logged and
    returns None; zero stations → None; otherwise `stations[0]` is
    returned raw (no normalization).  A truthy string `data` value would
    make `stations[0]` its first character; every other non-list shape
    raises and is caught → None.  This function never raises. -/
def get_station_info (r : HttpResult) : InfoResult JVal :=
  match r with
  | .ok status body =>
    if status != 200 then .ret none
    else
      match body with
      | .obj d =>
        match dgetD d "data" (.arr []) with
        | .arr stations =>
          match stations with
          | [] => .ret none
          | station :: _ => .ret (some station)
        | .s sv =>
          match sv.data with
          | [] => .ret none
          | c :: _ => .ret (some (.s (String.mk [c])))
        | _ => .ret none
      | _ => .ret none
  | .netErr => .ret none
  | .otherErr => .ret none

/-- Python `k in v` for the shapes `station_info` can take: key lookup on
    a dict, element membership on a list, substring test on a string;
    `None`/numbers/booleans raise `TypeError` (`none`). -/
def py_contains (v : JVal) (k : String) : Option Bool :=
  match v with
  | .obj d => some (dcontains d k)
  | .arr l => some (l.any fun x => match x with | .s sv => sv == k | _ => false)
  | .s sv => some (hasSubL k.data sv.data)
  | _ => none

/-- Python `v[k]` with a string key: value on a dict that has the key,
    `KeyError`/`TypeError` (`none`) otherwise. -/
def py_subscript (v : JVal) (k : String) : Option JVal :=
  match v with
  | .obj d => dlookup d k
  | _ => none

/-- One `if k in station_info: culq_data[k] = station_info[k]` step of
    `_fetch_station_data`; `none` when the Python raises. -/
def culqStep (info : JVal) (k : String) (culq : Dict) : Option Dict :=
  match py_contains info k with
  | none => none
  | some false => some culq
  | some true =>
    match py_subscript info k with
    | none => none
    | some v => some (culq ++ [(k, v)])

/-- `NVEWaterFlowCoordinator._fetch_station_data`, parameterized by the
    values returned by the two API calls.  Outer `none` models an escaped
    exception (this method has no try/except; a malformed `station_info`
    shape can raise at the `in`/subscript operators).  Inner value: the
    merged dict when `len(station_data) > 2`, else Python `None`. -/
def fetch_station_data (stationId stationName nowIso : String)
    (waterFlowData : Option JVal) (stationInfo : Option JVal) :
    Option (Option Dict) :=
  let sd0 : Dict := [("station_id", .s stationId),
                     ("station_name", .s stationName),
                     ("last_update", .s nowIso)]
  let sd1 : Dict :=
    match waterFlowData with
    | some w => if truthy w then sd0 ++ [("water_flow_data", w)] else sd0
    | none => sd0
  let step2 : Option Dict :=
    match stationInfo with
    | none => some sd1
    | some info =>
      if truthy info then
        match culqStep info "culQm" [] with
        | none => none
        | some c1 =>
          match culqStep info "culQ5" c1 with
          | none => none
          | some c2 =>
            match culqStep info "culQ50" c2 with
            | none => none
            | some culq =>
              some (if culq.isEmpty then sd1 else sd1 ++ [("culq_data", .obj culq)])
      else some sd1
  match step2 with
  | none => none
  | some sd2 => some (if sd2.length > 2 then some sd2 else none)

/-- One refresh tick of the nve_water_flow coordinator:
    `NVEWaterFlowCoordinator._async_update_data` composed with the host
    base-class refresh.  Success with a truthy fetch result publishes
    `{station_id: station_data}`; a falsy fetch result publishes `{}`;
    the exception handler also publishes `{}` (the empty dict is RETURNED
    and the host stores it in `.data`, replacing whatever was there).
    `self._last_update = now` runs on every path. -/
def refresh_tick (st : NVEState) (fetch : Except Unit (Option Dict))
    (now : Nat) : NVEState :=
  match fetch with
  | .ok sd =>
    let dta : List (String × Dict) :=
      match sd with
      | some d => if d.isEmpty then [] else [(st.station_id, d)]
      | none => []
    { st with data := some dta, last_update := some now }
  | .error _ =>
    { st with data := some [], last_update := some now }

end NVE

/-- Recognizer for Python dict values inside JSON arrays. -/
def isObjVal : JVal → Bool
  | .obj _ => true
  | _ => false

namespace Sildre

/-- Claim-side description of the record surfaced for one series by the
    sildre observations fetch: built from the LAST element of the series'
    observations array, or nothing when that array is empty. -/
def lastObservationRecord (series : JVal) : Option JVal :=
  match series with
  | .obj sd =>
    match dgetD sd "observations" (.arr []) with
    | .arr obsList =>
      match obsList.getLast? with
      | some (.obj od) =>
        some (.obj [("parameter", dget sd "parameter"),
                    ("time", dget od "time"),
                    ("value", dget od "value"),
                    ("correction", dget od "correction"),
                    ("quality", dget od "quality")])
      | _ => none
    | _ => none
  | _ => none

/-- Well-formed series as delivered by the Observations endpoint: a dict
    whose observations value is an array of dicts (possibly empty). -/
def wfSeries (series : JVal) : Bool :=
  match series with
  | .obj sd =>
    match dgetD sd "observations" (.arr []) with
    | .arr l => l.all isObjVal
    | _ => false
  | _ => false

/-- Station-data dicts the coordinator can actually hold: the
    `series_data` entry, when present, is an array of dicts (this is an
    invariant of everything `_fetch_station_data` stores). -/
def wf_station_data : Option Dict → Bool
  | none => true
  | some sd =>
    match dgetD sd "series_data" (.arr []) with
    | .arr l => l.all isObjVal
    | _ => false

/-- Claim-side description of `get_data_for_parameter`: the FIRST series
    record whose parameter field, converted with `str`, equals the id;
    `none` for an empty snapshot, missing series data, or no match. -/
def first_parameter_match (stationData : Option Dict) (parameterId : String) :
    Option JVal :=
  match stationData with
  | none => none
  | some sd =>
    if sd.isEmpty then none
    else
      match dgetD sd "series_data" (.arr []) with
      | .arr l =>
        l.find? (fun s =>
          match s with
          | .obj sdd => pyStr (dget sdd "parameter") == parameterId
          | _ => false)
      | _ => none

end Sildre

namespace NVE

/-- Claim-side description of what the nve_water_flow observations fetch
    surfaces for the FIRST series of the response. -/
def firstSeriesRecord (stationId : String) (series : JVal) : Option JVal :=
  match series with
  | .obj sd =>
    match dgetD sd "observations" (.arr []) with
    | .arr l =>
      match l.getLast? with
      | some (.obj od) =>
        some (.obj [("station_id", .s stationId),
                    ("station_name", dgetD sd "stationName" (.s "Unknown")),
                    ("parameter_name", dgetD sd "parameterName" (.s "Unknown")),
                    ("unit", dgetD sd "unit" (.s "Unknown")),
                    ("value", dget od "value"),
                    ("time", dget od "time"),
                    ("quality", dget od "quality"),
                    ("correction", dget od "correction"),
                    ("method", dgetD sd "method" (.s "Unknown"))])
      | _ => none
    | _ => none
  | _ => none

end NVE

/-- The last element of a list on which a Boolean predicate holds
    everywhere satisfies the predicate. -/
theorem getLast?_all {p : JVal → Bool} :
    ∀ {l : List JVal} {x : JVal}, l.all p = true → l.getLast? = some x → p x = true := by
  intro l
  induction l with
  | nil => intro x _ hx; cases hx
  | cons a t ih =>
    intro x hall hx
    cases t with
    | nil =>
      simp only [List.getLast?] at hx
      cases hx
      simp only [List.all_cons, Bool.and_eq_true] at hall
      exact hall.1
    | cons b t2 =>
      simp only [List.all_cons, Bool.and_eq_true] at hall
      have hx2 : (b :: t2).getLast? = some x := by
        simpa [List.getLast?] using hx
      exact ih (by simp [List.all_cons, hall.2.1, hall.2.2]) hx2

/-- Characterization of the sildre observations loop on well-formed series
    lists: one record per series with a non-empty observations array,
    always built from the LAST observation; empty series are skipped. -/
theorem processSeriesList_eq_filterMap :
    ∀ (l : List JVal), l.all Sildre.wfSeries = true →
      Sildre.processSeriesList l = some (l.filterMap Sildre.lastObservationRecord) := by
  intro l
  induction l with
  | nil => intro _; rfl
  | cons s rest ih =>
    intro hall
    simp only [List.all_cons, Bool.and_eq_true] at hall
    obtain ⟨hs, hrest⟩ := hall
    cases s with
    | obj sd =>
      simp only [Sildre.wfSeries] at hs
      cases hobs : dgetD sd "observations" (.arr []) with
      | arr ol =>
        rw [hobs] at hs
        simp only [Sildre.processSeriesList, Sildre.lastObservationRecord,
          List.filterMap_cons, hobs]
        cases ol with
        | nil => simp [truthy, ih hrest]
        | cons o os =>
          rcases hl : (o :: os).getLast? with _ | last
          · simp [List.getLast?_eq_none_iff] at hl
          · have hobj := getLast?_all hs hl
            cases last with
            | obj od => simp [truthy, hl, ih hrest]
            | null => simp [isObjVal] at hobj
            | b v => simp [isObjVal] at hobj
            | s v => simp [isObjVal] at hobj
            | i v => simp [isObjVal] at hobj
            | arr l2 => simp [isObjVal] at hobj
      | null => rw [hobs] at hs; simp at hs
      | b v => rw [hobs] at hs; simp at hs
      | s v => rw [hobs] at hs; simp at hs
      | i v => rw [hobs] at hs; simp at hs
      | obj l2 => rw [hobs] at hs; simp at hs
    | null => simp [Sildre.wfSeries] at hs
    | b v => simp [Sildre.wfSeries] at hs
    | s v => simp [Sildre.wfSeries] at hs
    | i v => simp [Sildre.wfSeries] at hs
    | arr l2 => simp [Sildre.wfSeries] at hs

/-- Every record the observations loop emits is a dict. -/
theorem processSeriesList_all_obj :
    ∀ (l out : List JVal), Sildre.processSeriesList l = some out →
      out.all isObjVal = true := by
  intro l
  induction l with
  | nil => intro out h; cases h; rfl
  | cons s rest ih =>
    intro out h
    cases s with
    | obj sd =>
      simp only [Sildre.processSeriesList] at h
      split at h
      · split at h
        · split at h
          · rcases hrec : Sildre.processSeriesList rest with _ | o2
            · rw [hrec] at h; cases h
            · rw [hrec] at h
              injection h with h2
              subst h2
              simp [isObjVal, ih o2 hrec]
          · cases h
        · cases h
      · exact ih out h
    | null => cases h
    | b v => cases h
    | s v => cases h
    | i v => cases h
    | arr l2 => cases h

/-- Every record list returned by the sildre observations fetch consists
    of dicts. -/
theorem get_series_data_all_obj :
    ∀ (r : HttpResult) (out : List JVal), Sildre.get_series_data r = some out →
      out.all isObjVal = true := by
  intro r out h
  cases r with
  | ok status body =>
    cases body with
    | obj d =>
      simp only [Sildre.get_series_data] at h
      split at h
      · cases h
      · cases hd : dgetD d "data" (.arr []) with
        | arr seriesList =>
          simp only [hd] at h
          exact processSeriesList_all_obj _ out h
        | obj l =>
          simp only [hd] at h
          split at h
          · cases h; rfl
          · cases h
        | s sv =>
          simp only [hd] at h
          split at h
          · cases h; rfl
          · cases h
        | null => simp only [hd] at h; cases h
        | b v => simp only [hd] at h; cases h
        | i v => simp only [hd] at h; cases h
    | null => simp only [Sildre.get_series_data] at h; split at h <;> cases h
    | b v => simp only [Sildre.get_series_data] at h; split at h <;> cases h
    | s v => simp only [Sildre.get_series_data] at h; split at h <;> cases h
    | i v => simp only [Sildre.get_series_data] at h; split at h <;> cases h
    | arr l2 => simp only [Sildre.get_series_data] at h; split at h <;> cases h
  | netErr => cases h
  | otherErr => cases h

/-- Reachability invariant: every value the sildre merge step can store in
    `self.station_data` is well formed in the sense of
    `Sildre.wf_station_data`. -/
theorem wf_fetch_station_data :
    ∀ (stationId stationName nowIso : String) (seriesResp : HttpResult)
      (stationInfo : Option Dict),
      Sildre.wf_station_data
        (Sildre.fetch_station_data stationId stationName nowIso
          (Sildre.get_series_data seriesResp) stationInfo) = true := by
  intro sid sn ni r info
  rcases hsd : Sildre.get_series_data r with _ | l
  · rcases info with _ | i
    · simp only [Sildre.fetch_station_data]
      split_ifs <;> rfl
    · simp only [Sildre.fetch_station_data]
      split_ifs <;> rfl
  · have hobj : l.all isObjVal = true := get_series_data_all_obj r l hsd
    rcases info with _ | i
    · simp only [Sildre.fetch_station_data]
      split_ifs <;>
        first | rfl | simp [Sildre.wf_station_data, dget, dgetD, dlookup, hobj]
    · simp only [Sildre.fetch_station_data]
      split_ifs <;>
        first | rfl | simp [Sildre.wf_station_data, dget, dgetD, dlookup, hobj]

/-- On a list of dicts the `get_data_for_parameter` loop agrees with
    `List.find?` on the match predicate and cannot raise. -/
theorem findParamLoop_eq_find? :
    ∀ (l : List JVal) (pid : String), l.all isObjVal = true →
      Sildre.findParamLoop l pid = some (l.find? (fun s =>
        match s with
        | .obj sdd => pyStr (dget sdd "parameter") == pid
        | _ => false)) := by
  intro l pid
  induction l with
  | nil => intro _; rfl
  | cons s rest ih =>
    intro hall
    simp only [List.all_cons, Bool.and_eq_true] at hall
    obtain ⟨hs, hrest⟩ := hall
    cases s with
    | obj sd =>
      cases hp : (pyStr (dget sd "parameter") == pid) with
      | true => simp [Sildre.findParamLoop, List.find?_cons, hp]
      | false => simp [Sildre.findParamLoop, List.find?_cons, hp, ih hrest]
    | null => simp [isObjVal] at hs
    | b v => simp [isObjVal] at hs
    | s v => simp [isObjVal] at hs
    | i v => simp [isObjVal] at hs
    | arr l2 => simp [isObjVal] at hs

/-- Inversion: whenever the sildre station-info fetch returns a record,
    that record has exactly the six fixed keys, in order, with the three
    culQ keys always present. -/
theorem get_station_info_shape :
    ∀ (r : HttpResult) (info : Dict), Sildre.get_station_info r = .ret (some info) →
      ∃ v1 v2 v3 v4 v5 sl, info =
        [("station_id", v1), ("station_name", v2), ("culQm", v3),
         ("culQ5", v4), ("culQ50", v5), ("series_list", .arr sl)] := by
  intro r info h
  cases r with
  | ok status body =>
    cases body with
    | obj d =>
      simp only [Sildre.get_station_info] at h
      split at h
      · cases h
      · split at h
        · cases h
        · cases hd : dgetD d "data" (.arr []) with
          | arr stations =>
            simp only [hd] at h
            cases stations with
            | nil => cases h
            | cons station rest =>
              cases station with
              | obj st =>
                cases hsl : dgetD st "seriesList" (.arr []) with
                | arr sl =>
                  simp only [hsl] at h
                  cases hm : Sildre.mapSeriesListRaw sl with
                  | none => rw [hm] at h; cases h
                  | some seriesList =>
                    rw [hm] at h
                    cases h
                    exact ⟨_, _, _, _, _, _, rfl⟩
                | obj l =>
                  simp only [hsl] at h
                  split at h
                  · cases h; exact ⟨_, _, _, _, _, _, rfl⟩
                  · cases h
                | s sv =>
                  simp only [hsl] at h
                  split at h
                  · cases h; exact ⟨_, _, _, _, _, _, rfl⟩
                  · cases h
                | null => simp only [hsl] at h; cases h
                | b v => simp only [hsl] at h; cases h
                | i v => simp only [hsl] at h; cases h
              | null => cases h
              | b v => cases h
              | s v => cases h
              | i v => cases h
              | arr l2 => cases h
          | null => simp only [hd] at h; cases h
          | b v => simp only [hd] at h; cases h
          | s v => simp only [hd] at h; cases h
          | i v => simp only [hd] at h; cases h
          | obj l2 => simp only [hd] at h; cases h
    | null => simp only [Sildre.get_station_info] at h; split at h; · cases h
              · split at h <;> simp at h
    | b v => simp only [Sildre.get_station_info] at h; split at h; · cases h
             · split at h <;> simp at h
    | s v => simp only [Sildre.get_station_info] at h; split at h; · cases h
             · split at h <;> simp at h
    | i v => simp only [Sildre.get_station_info] at h; split at h; · cases h
             · split at h <;> simp at h
    | arr l2 => simp only [Sildre.get_station_info] at h; split at h; · cases h
                · split at h <;> simp at h
  | netErr => cases h
  | otherErr => cases h

/-- C1 counterexample: a concrete nve_water_flow coordinator holding a good
    snapshot loses it on a failed tick — the exception handler returns `{}`
    and the host stores it, so the exposed data after the tick is the empty
    dict, not the previous snapshot. -/
theorem C1_counterexample_failed_tick :
    (NVE.refresh_tick ⟨some [("6.10.0", [("water_flow_data", .obj [("value", .i 12)])])],
        some 0, 600, "6.10.0"⟩ (.error ()) 1).data = some [] ∧
    (some [("6.10.0", [("water_flow_data", .obj [("value", .i 12)])])] :
        Option (List (String × Dict))) ≠ some [] := ⟨rfl, by simp⟩

/-- C1 (amended): on a tick whose fetch raises, the sildre coordinator
    retains both its exposed data and its `station_data` unchanged (the
    exception handler itself raises `UnboundLocalError` before the return,
    so the host keeps the old snapshot), while the nve_water_flow
    coordinator replaces the exposed data with an empty snapshot. -/
theorem C1_amended_failed_tick_policy :
    (∀ (st : SildreState) (now : Nat),
        (Sildre.refresh_tick st (.error ()) now).data = st.data ∧
        (Sildre.refresh_tick st (.error ()) now).station_data = st.station_data) ∧
    (∀ (st : NVEState) (now : Nat),
        (NVE.refresh_tick st (.error ()) now).data = some []) :=
  ⟨fun _ _ => ⟨rfl, rfl⟩, fun _ _ => rfl⟩

/-- C2: when both fetches return empty/absent results, the sildre merge
    step produces exactly the three base entries (station id, station
    name, timestamp) — but it RETURNS that dict instead of reporting
    failure, because the `len(station_data) > 2` guard is satisfied by the
    three base keys themselves (the comment says "more than just
    station_id and last_update" but the base dict also holds
    station_name); indeed the merge never returns `None` at all.  The
    same holds for the nve_water_flow generation. -/
theorem C2_empty_merge_returned :
    (∀ stationId stationName nowIso : String,
        Sildre.fetch_station_data stationId stationName nowIso none none =
          some [("station_id", .s stationId), ("station_name", .s stationName),
                ("last_update", .s nowIso)]) ∧
    (∀ stationId stationName nowIso : String,
        Sildre.fetch_station_data stationId stationName nowIso (some []) none =
          some [("station_id", .s stationId), ("station_name", .s stationName),
                ("last_update", .s nowIso)]) ∧
    (∀ stationId stationName nowIso : String,
        NVE.fetch_station_data stationId stationName nowIso none none =
          some (some [("station_id", .s stationId), ("station_name", .s stationName),
                      ("last_update", .s nowIso)])) ∧
    (∀ (stationId stationName nowIso : String) (seriesData : Option (List JVal))
        (stationInfo : Option Dict),
        (Sildre.fetch_station_data stationId stationName nowIso seriesData
          stationInfo).isSome = true) := by
  refine ⟨fun a b c => rfl, fun a b c => rfl, fun a b c => rfl,
          fun a b c seriesData stationInfo => ?_⟩
  cases seriesData <;> cases stationInfo <;>
    simp [Sildre.fetch_station_data] <;> split_ifs <;> simp_all

/-- C3: `test_connection` returns success iff the probe status is 200,
    raises InvalidAPIKey iff it is 401, and raises CannotConnect for every
    other status and for every network-level error (`aiohttp.ClientError`:
    timeout, DNS failure, refused connection, TLS failure). -/
theorem C3_test_connection :
    (∀ (status : Nat) (body : JVal),
        test_connection (.ok status body) = .success ↔ status = 200) ∧
    (∀ (status : Nat) (body : JVal),
        test_connection (.ok status body) = .invalidAPIKey ↔ status = 401) ∧
    (∀ (status : Nat) (body : JVal), status ≠ 200 → status ≠ 401 →
        test_connection (.ok status body) = .cannotConnect) ∧
    test_connection .netErr = .cannotConnect := by
  refine ⟨fun status body => ?_, fun status body => ?_,
          fun status body h1 h2 => ?_, rfl⟩ <;>
    simp only [test_connection, beq_iff_eq] <;> split_ifs <;> simp_all

/-- C3 witness: the generic-failure clause evaluated at status 503. -/
theorem C3_test_connection_witness :
    (503 : Nat) ≠ 200 ∧ (503 : Nat) ≠ 401 ∧
    test_connection (.ok 503 .null) = .cannotConnect :=
  ⟨by decide, by decide, C3_test_connection.2.2.1 503 .null (by decide) (by decide)⟩

/-- C4 counterexample: an HTTP-200 observations response whose FIRST series
    has an empty observations array and whose SECOND series has data — the
    claim demands the empty series be skipped and the second surfaced, but
    `get_water_flow_data` (nve_water_flow) only consults the first series
    and the whole call returns None, surfacing no record at all. -/
theorem C4_counterexample_first_series_only :
    NVE.get_water_flow_data "6.10.0" (.ok 200 (.obj [("data", .arr
      [.obj [("parameter", .i 1000), ("observations", .arr [])],
       .obj [("parameter", .i 1001),
             ("observations", .arr [.obj [("value", .i 5), ("time", .s "T")]])]])])) =
    none := rfl

/-- C4 (amended): for well-formed HTTP-200 observations responses, the
    sildre `get_series_data` surfaces exactly the last element of each
    series with a non-empty observations array, skipping empty series
    without failing the call; the nve_water_flow `get_water_flow_data`
    instead surfaces the last observation of the FIRST series only, and
    returns None when that first series is empty. -/
theorem C4_amended_per_variant :
    (∀ (d : Dict) (seriesList : List JVal),
        dgetD d "data" (.arr []) = .arr seriesList →
        seriesList.all Sildre.wfSeries = true →
        Sildre.get_series_data (.ok 200 (.obj d)) =
          some (seriesList.filterMap Sildre.lastObservationRecord)) ∧
    (∀ (stationId : String) (d : Dict) (seriesList : List JVal),
        dgetD d "data" (.arr []) = .arr seriesList →
        seriesList.all Sildre.wfSeries = true →
        NVE.get_water_flow_data stationId (.ok 200 (.obj d)) =
          seriesList.head?.bind (NVE.firstSeriesRecord stationId)) := by
  constructor
  · intro d seriesList hdata hwf
    simp only [Sildre.get_series_data, hdata]
    simpa using processSeriesList_eq_filterMap seriesList hwf
  · intro stationId d seriesList hdata hwf
    simp only [NVE.get_water_flow_data, hdata]
    cases seriesList with
    | nil => rfl
    | cons s rest =>
      simp only [List.all_cons, Bool.and_eq_true] at hwf
      obtain ⟨hs, _⟩ := hwf
      cases s with
      | obj sd =>
        simp only [Sildre.wfSeries] at hs
        cases hobs : dgetD sd "observations" (.arr []) with
        | arr ol =>
          rw [hobs] at hs
          simp only [List.head?, Option.bind, NVE.firstSeriesRecord, hobs]
          cases ol with
          | nil => simp [truthy]
          | cons o os =>
            rcases hl : (o :: os).getLast? with _ | last
            · simp [List.getLast?_eq_none_iff] at hl
            · have hobj := getLast?_all hs hl
              cases last with
              | obj od => simp [truthy, hl]
              | null => simp [isObjVal] at hobj
              | b v => simp [isObjVal] at hobj
              | s v => simp [isObjVal] at hobj
              | i v => simp [isObjVal] at hobj
              | arr l2 => simp [isObjVal] at hobj
        | null => rw [hobs] at hs; simp at hs
        | b v => rw [hobs] at hs; simp at hs
        | s v => rw [hobs] at hs; simp at hs
        | i v => rw [hobs] at hs; simp at hs
        | obj l2 => rw [hobs] at hs; simp at hs
      | null => simp [Sildre.wfSeries] at hs
      | b v => simp [Sildre.wfSeries] at hs
      | s v => simp [Sildre.wfSeries] at hs
      | i v => simp [Sildre.wfSeries] at hs
      | arr l2 => simp [Sildre.wfSeries] at hs

/-- C4 witness: a five-element synthetic series — only the fifth
    observation is surfaced by the sildre fetch. -/
theorem C4_amended_per_variant_witness :
    Sildre.get_series_data (.ok 200 (.obj [("data", .arr
      [.obj [("parameter", .i 1001), ("observations", .arr
        [.obj [("value", .i 1), ("time", .s "T1")],
         .obj [("value", .i 2), ("time", .s "T2")],
         .obj [("value", .i 3), ("time", .s "T3")],
         .obj [("value", .i 4), ("time", .s "T4")],
         .obj [("value", .i 5), ("time", .s "T5")]])]])])) =
    some [.obj [("parameter", .i 1001), ("time", .s "T5"), ("value", .i 5),
                ("correction", .null), ("quality", .null)]] :=
  C4_amended_per_variant.1
    [("data", .arr [.obj [("parameter", .i 1001), ("observations", .arr
        [.obj [("value", .i 1), ("time", .s "T1")],
         .obj [("value", .i 2), ("time", .s "T2")],
         .obj [("value", .i 3), ("time", .s "T3")],
         .obj [("value", .i 4), ("time", .s "T4")],
         .obj [("value", .i 5), ("time", .s "T5")]])]])]
    [.obj [("parameter", .i 1001), ("observations", .arr
        [.obj [("value", .i 1), ("time", .s "T1")],
         .obj [("value", .i 2), ("time", .s "T2")],
         .obj [("value", .i 3), ("time", .s "T3")],
         .obj [("value", .i 4), ("time", .s "T4")],
         .obj [("value", .i 5), ("time", .s "T5")]])]]
    rfl rfl

/-- C5 counterexample: a 401 Stations response in the nve_water_flow
    generation — `get_station_info` returns an absent result (None), it
    does not raise InvalidAPIKey, contradicting the claim for this
    variant. -/
theorem C5_counterexample_401_absent :
    NVE.get_station_info
      (.ok 401 (.obj [("data", .arr [.obj [("stationId", .s "6.10.0")]])])) = .ret none ∧
    (InfoResult.ret (none : Option JVal)) ≠ .invalidKey := ⟨rfl, by simp⟩

/-- C5 (amended): only the sildre generation raises InvalidAPIKey on a 401
    station-info response, and there the exception propagates out of the
    merge step to the caller; the nve_water_flow generation treats 401
    like any other non-200 status and returns None. -/
theorem C5_amended_per_variant :
    (∀ body : JVal, Sildre.get_station_info (.ok 401 body) = .invalidKey) ∧
    (∀ (stationId stationName nowIso : String) (seriesResp : HttpResult) (body : JVal),
        Sildre.fetch_outcome stationId stationName nowIso seriesResp (.ok 401 body) =
          .error ()) ∧
    (∀ body : JVal, NVE.get_station_info (.ok 401 body) = .ret none) := by
  refine ⟨fun body => rfl, fun a b c d body => ?_, fun body => rfl⟩
  simp [Sildre.fetch_outcome, Sildre.get_station_info]

/-- C6: for every jitter draw in the `randint(-30, 30)` range, a
    coordinator constructed without an explicit interval gets an effective
    interval in [570, 630] seconds, and no refresh tick of either
    generation ever changes the stored interval (it is drawn once at
    construction). -/
theorem C6_jitter_interval :
    (∀ draw : Int, -VARIANCE_SECONDS ≤ draw → draw ≤ VARIANCE_SECONDS →
        570 ≤ effective_update_interval none draw ∧
        effective_update_interval none draw ≤ 630) ∧
    (∀ (st : SildreState) (fetch : Except Unit (Option Dict)) (now : Nat),
        (Sildre.refresh_tick st fetch now).update_interval = st.update_interval) ∧
    (∀ (st : NVEState) (fetch : Except Unit (Option Dict)) (now : Nat),
        (NVE.refresh_tick st fetch now).update_interval = st.update_interval) := by
  refine ⟨fun draw h1 h2 => ?_, fun st fetch now => ?_, fun st fetch now => ?_⟩
  · simp only [effective_update_interval, UPDATE_INTERVAL_SECONDS,
      VARIANCE_SECONDS] at *
    omega
  · cases fetch <;> rfl
  · cases fetch <;> rfl

/-- C6 witness: the bound evaluated at the draw 17. -/
theorem C6_jitter_interval_witness :
    -VARIANCE_SECONDS ≤ (17 : Int) ∧ (17 : Int) ≤ VARIANCE_SECONDS ∧
    570 ≤ effective_update_interval none 17 ∧
    effective_update_interval none 17 ≤ 630 :=
  ⟨by decide, by decide, (C6_jitter_interval.1 17 (by decide) (by decide)).1,
   (C6_jitter_interval.1 17 (by decide) (by decide)).2⟩

/-- C7 counterexample: concrete failed ticks in both generations move the
    `_last_update` timestamp from 5 to 9 — it is not left unchanged on
    failure. -/
theorem C7_counterexample_last_update :
    (Sildre.refresh_tick ⟨some [("station_id", .s "6.10.0")], some [], some 5, 600⟩
        (.error ()) 9).last_update = some 9 ∧
    (NVE.refresh_tick ⟨some [("6.10.0", [("station_id", .s "6.10.0")])], some 5, 600, "6.10.0"⟩
        (.error ()) 9).last_update = some 9 ∧
    some (9 : Nat) ≠ some 5 := ⟨rfl, rfl, by decide⟩

/-- C7 (amended): `self._last_update = datetime.now()` runs on EVERY tick,
    failed or successful (in sildre it runs just before the exception
    path's own UnboundLocalError), so the exposed last-update timestamp
    always advances and cannot be used to detect failed refreshes. -/
theorem C7_amended_last_update_every_tick :
    (∀ (st : SildreState) (fetch : Except Unit (Option Dict)) (now : Nat),
        (Sildre.refresh_tick st fetch now).last_update = some now) ∧
    (∀ (st : NVEState) (fetch : Except Unit (Option Dict)) (now : Nat),
        (NVE.refresh_tick st fetch now).last_update = some now) := by
  constructor <;> intro st fetch now <;> cases fetch <;> rfl

/-- C8: on an HTTP-200 Stations search with two or more matches whose
    first match carries a truthy stationId, `resolve_station_name` returns
    that first id; on a zero-match response it returns an absent result,
    not an error. -/
theorem C8_resolver_first_match :
    (∀ (d : Dict) (st0 : Dict) (stations : List JVal),
        dgetD d "data" (.arr []) = .arr (.obj st0 :: stations) →
        1 ≤ stations.length →
        truthy (dget st0 "stationId") = true →
        NVE.resolve_station_name (.ok 200 (.obj d)) = some (dget st0 "stationId")) ∧
    (∀ d : Dict, dgetD d "data" (.arr []) = .arr [] →
        NVE.resolve_station_name (.ok 200 (.obj d)) = none) := by
  constructor
  · intro d st0 stations hdata _hlen htr
    simp only [NVE.resolve_station_name, hdata]
    simp [htr]
  · intro d hdata
    simp only [NVE.resolve_station_name, hdata]
    rfl

/-- C8 witness: a two-match response resolves to the first id. -/
theorem C8_resolver_first_match_witness :
    NVE.resolve_station_name (.ok 200 (.obj [("data", .arr
      [.obj [("stationId", .s "6.10.0")], .obj [("stationId", .s "6.11.0")]])])) =
    some (.s "6.10.0") :=
  C8_resolver_first_match.1 [("data", .arr
      [.obj [("stationId", .s "6.10.0")], .obj [("stationId", .s "6.11.0")]])]
    [("stationId", .s "6.10.0")] [.obj [("stationId", .s "6.11.0")]]
    rfl (by decide) rfl

/-- C9: on every station-data value the coordinator can actually hold
    (second conjunct: everything the merge step produces is well formed),
    `get_data_for_parameter` never raises and returns exactly the first
    series whose stringified parameter equals the requested id, and None
    when the snapshot is empty, has no series data, or has no match. -/
theorem C9_get_data_total_first_match :
    (∀ (stationData : Option Dict) (parameterId : String),
        Sildre.wf_station_data stationData = true →
        Sildre.get_data_for_parameter stationData parameterId =
          some (Sildre.first_parameter_match stationData parameterId)) ∧
    (∀ (stationId stationName nowIso : String) (seriesResp : HttpResult)
        (stationInfo : Option Dict),
        Sildre.wf_station_data
          (Sildre.fetch_station_data stationId stationName nowIso
            (Sildre.get_series_data seriesResp) stationInfo) = true) := by
  constructor
  · intro stationData pid hwf
    rcases stationData with _ | sd
    · rfl
    · by_cases he : sd.isEmpty
      · simp [Sildre.get_data_for_parameter, Sildre.first_parameter_match, he]
      · simp only [Sildre.wf_station_data] at hwf
        cases hd : dgetD sd "series_data" (.arr []) with
        | arr l =>
          rw [hd] at hwf
          simp only [Sildre.get_data_for_parameter, Sildre.first_parameter_match,
            he, hd, if_neg]
          exact findParamLoop_eq_find? l pid hwf
        | null => rw [hd] at hwf; simp at hwf
        | b v => rw [hd] at hwf; simp at hwf
        | s v => rw [hd] at hwf; simp at hwf
        | i v => rw [hd] at hwf; simp at hwf
        | obj l2 => rw [hd] at hwf; simp at hwf
  · exact wf_fetch_station_data

/-- C9 witness: a two-series snapshot queried for parameter 1001 returns
    the second series without raising. -/
theorem C9_get_data_total_first_match_witness :
    Sildre.wf_station_data (some [("station_id", .s "6.10.0"),
      ("station_name", .s "Gryta"), ("last_update", .s "T"),
      ("series_data", .arr [.obj [("parameter", .i 1000), ("value", .i 1)],
                            .obj [("parameter", .i 1001), ("value", .i 5)]])]) = true ∧
    Sildre.get_data_for_parameter (some [("station_id", .s "6.10.0"),
      ("station_name", .s "Gryta"), ("last_update", .s "T"),
      ("series_data", .arr [.obj [("parameter", .i 1000), ("value", .i 1)],
                            .obj [("parameter", .i 1001), ("value", .i 5)]])]) "1001" =
      some (some (.obj [("parameter", .i 1001), ("value", .i 5)])) :=
  ⟨rfl, C9_get_data_total_first_match.1 (some [("station_id", .s "6.10.0"),
      ("station_name", .s "Gryta"), ("last_update", .s "T"),
      ("series_data", .arr [.obj [("parameter", .i 1000), ("value", .i 1)],
                            .obj [("parameter", .i 1001), ("value", .i 5)]])]) "1001" rfl⟩

/-- C10: whenever the sildre station-info fetch returns a record, merging
    it always attaches a `culq_data` dict holding exactly the keys culQm,
    culQ5, culQ50 (values possibly null), because the normalized station
    record always carries all three keys. -/
theorem C10_culq_three_keys :
    ∀ (r : HttpResult) (info : Dict) (stationId stationName nowIso : String)
      (seriesData : Option (List JVal)),
      Sildre.get_station_info r = .ret (some info) →
      ∃ sd, Sildre.fetch_station_data stationId stationName nowIso seriesData
          (some info) = some sd ∧
        dlookup sd "culq_data" = some (.obj [("culQm", dget info "culQm"),
          ("culQ5", dget info "culQ5"), ("culQ50", dget info "culQ50")]) := by
  intro r info sid sn ni seriesData h
  obtain ⟨v1, v2, v3, v4, v5, sl, rfl⟩ := get_station_info_shape r info h
  rcases seriesData with _ | l
  · exact ⟨_, rfl, rfl⟩
  · by_cases he : l.isEmpty
    · have hnil : l = [] := by simpa using he
      subst hnil
      exact ⟨_, rfl, rfl⟩
    · refine ⟨[("station_id", .s sid), ("station_name", .s sn), ("last_update", .s ni),
               ("series_data", .arr l),
               ("culq_data", .obj [("culQm", v3), ("culQ5", v4), ("culQ50", v5)])],
              ?_, rfl⟩
      simp [Sildre.fetch_station_data, he, dcontains, dlookup, dget]

/-- C10 witness: a station with only culQm set still yields a culq_data
    dict with all three keys (the missing ones null). -/
theorem C10_culq_three_keys_witness :
    Sildre.get_station_info (.ok 200 (.obj [("data", .arr [.obj [("stationId", .s "6.10.0"),
        ("stationName", .s "Gryta"), ("culQm", .i 8)]])])) =
      .ret (some [("station_id", .s "6.10.0"), ("station_name", .s "Gryta"),
                  ("culQm", .i 8), ("culQ5", .null), ("culQ50", .null),
                  ("series_list", .arr [])]) ∧
    (∃ sd, Sildre.fetch_station_data "6.10.0" "Gryta" "T" none
        (some [("station_id", .s "6.10.0"), ("station_name", .s "Gryta"),
               ("culQm", .i 8), ("culQ5", .null), ("culQ50", .null),
               ("series_list", .arr [])]) = some sd ∧
      dlookup sd "culq_data" = some (.obj [("culQm",
        dget [("station_id", .s "6.10.0"), ("station_name", .s "Gryta"),
              ("culQm", .i 8), ("culQ5", .null), ("culQ50", .null),
              ("series_list", .arr [])] "culQm"),
        ("culQ5", dget [("station_id", .s "6.10.0"), ("station_name", .s "Gryta"),
              ("culQm", .i 8), ("culQ5", .null), ("culQ50", .null),
              ("series_list", .arr [])] "culQ5"),
        ("culQ50", dget [("station_id", .s "6.10.0"), ("station_name", .s "Gryta"),
              ("culQm", .i 8), ("culQ5", .null), ("culQ50", .null),
              ("series_list", .arr [])] "culQ50")])) :=
  ⟨rfl, C10_culq_three_keys (.ok 200 (.obj [("data", .arr [.obj [("stationId", .s "6.10.0"),
        ("stationName", .s "Gryta"), ("culQm", .i 8)]])]))
    [("station_id", .s "6.10.0"), ("station_name", .s "Gryta"),
     ("culQm", .i 8), ("culQ5", .null), ("culQ50", .null), ("series_list", .arr [])]
    "6.10.0" "Gryta" "T" none rfl⟩
